import Mathlib

/-!
Verification development for the per-frame vehicle simulation of the
colins driving demo.

The repository contains three near-duplicate CarController variants,
all built around the same per-frame simulation step (movement physics,
relative world movement, ground alignment and falling, cube collisions):

* src/unnamed/part_003 - bowl-terrain controller (worldRadius bound,
  hasLanded guard, world position is decremented by the displacement,
  respawn resets the full world anchor);
* src/unnamed/part_002 - highway controller (no bounds check, heading
  clamped to plus/minus pi/3, world position is incremented by the
  displacement, respawn resets only the anchor x offset);
* src/unnamed/part_004 - Porsche controller (like part_003 but with no
  hasLanded guard: every probe miss while grounded starts falling).

The step functions below are direct shallow embeddings of the bodies of
the useFrame callbacks, stage by stage, in source order.  Numeric state
is rational; the float transcendental library functions (Math.sin,
Math.cos, Math.asin, Math.sqrt, Math.PI) are passed in as an explicit
record of rational-valued primitives, so every definition stays
executable and theorems quantify over the primitives where the claims
do not depend on their values.
-/

namespace Colins

/-- Boolean input intent vector, read from the global keyboard record
once per frame. -/
structure Intent where
  forward : Bool
  backward : Bool
  left : Bool
  right : Bool
  brake : Bool
  deriving DecidableEq, Repr

/-- A 3-component vector of rationals (positions, velocities, Euler
rotations). -/
structure Vec3 where
  x : ℚ
  y : ℚ
  z : ℚ
  deriving DecidableEq, Repr

/-- Result of the downward ground raycast, restricted to hits whose
object is named Terrain: the hit point height and the local surface
normal x/z components (after transformDirection). -/
structure GroundHit where
  pointY : ℚ
  nx : ℚ
  nz : ℚ
  deriving DecidableEq, Repr

/-- The vehicle simulation state mutated by one useFrame call:
velocity.current, steeringAngle.current, isFalling.current,
hasLanded.current, verticalVelocity.current, the carGroupRef local
transform and the worldRef (world anchor) transform.  Cosmetic wheel
spin / body lean state never feeds back into physics and is omitted. -/
structure CarState where
  speed : ℚ
  heading : ℚ
  isFalling : Bool
  hasLanded : Bool
  verticalVelocity : ℚ
  carPos : Vec3
  carRot : Vec3
  worldPos : Vec3
  worldRot : Vec3
  deriving DecidableEq, Repr

/-- State of one pushable cube prop: position in world-anchor-local
space, velocity, and the fallen flag. -/
structure CubeState where
  position : Vec3
  velocity : Vec3
  fallen : Bool
  deriving DecidableEq, Repr

/-- Rational-valued stand-ins for the float math library functions used
by the controller (Math.sin, Math.cos, Math.asin, Math.sqrt, Math.PI).
Theorems quantify over this record; concrete instantiations used in
witnesses agree with the float functions at every argument actually
evaluated. -/
structure MathPrims where
  sinF : ℚ → ℚ
  cosF : ℚ → ℚ
  asinF : ℚ → ℚ
  sqrtF : ℚ → ℚ
  piF : ℚ

/-- maxSpeed = 1.2 -/
def maxSpeed : ℚ := 6/5

/-- acceleration = 0.02 -/
def acceleration : ℚ := 1/50

/-- deceleration = 0.012 -/
def deceleration : ℚ := 3/250

/-- friction = 0.985 -/
def friction : ℚ := 197/200

/-- turnSpeed = 0.05 -/
def turnSpeed : ℚ := 1/20

/-- gravity = 0.005 -/
def gravity : ℚ := 1/200

/-- worldRadius = 400 (part_003 / part_004 bounds check) -/
def worldRadius : ℚ := 400

/-- MathUtils.clamp value lo hi = max lo (min hi value). -/
def clamp (value lo hi : ℚ) : ℚ := max lo (min hi value)

/-- MathUtils.lerp a b t = a + (b - a) * t. -/
def lerp (a b t : ℚ) : ℚ := a + (b - a) * t

/-- Section 1 MOVEMENT PHYSICS of part_003 (identical in part_004):
gated on !isFalling; accelerate / decelerate / coast, brake factor
0.88, clamp speed to [-maxSpeed * 0.5, maxSpeed], then steering inside
the |velocity| > 0.01 deadzone check. -/
def physicsStage (inp : Intent) (s : CarState) : CarState :=
  if s.isFalling then s else
  let v1 := if inp.forward then s.speed + acceleration
            else if inp.backward then s.speed - deceleration
            else s.speed * friction
  let v2 := if inp.brake then v1 * (22/25) else v1
  let v3 := clamp v2 (-(maxSpeed * (1/2))) maxSpeed
  let h :=
    if |v3| > 1/100 then
      let steerFactor := |v3| / maxSpeed
      let dir : ℚ := if v3 > 0 then 1 else -1
      let h1 := if inp.left then s.heading + turnSpeed * steerFactor * dir else s.heading
      if inp.right then h1 - turnSpeed * steerFactor * dir else h1
    else s.heading
  { s with speed := v3, heading := h }

/-- Section 1 MOVEMENT PHYSICS of part_002: as physicsStage, but while
steering is live (|velocity| > 0.01) the steering angle is additionally
clamped to [-Math.PI / 3, Math.PI / 3]. -/
def physicsStage002 (prims : MathPrims) (inp : Intent) (s : CarState) : CarState :=
  if s.isFalling then s else
  let v1 := if inp.forward then s.speed + acceleration
            else if inp.backward then s.speed - deceleration
            else s.speed * friction
  let v2 := if inp.brake then v1 * (22/25) else v1
  let v3 := clamp v2 (-(maxSpeed * (1/2))) maxSpeed
  let h :=
    if |v3| > 1/100 then
      let steerFactor := |v3| / maxSpeed
      let dir : ℚ := if v3 > 0 then 1 else -1
      let h1 := if inp.left then s.heading + turnSpeed * steerFactor * dir else s.heading
      let h2 := if inp.right then h1 - turnSpeed * steerFactor * dir else h1
      clamp h2 (-(prims.piF / 3)) (prims.piF / 3)
    else s.heading
  { s with speed := v3, heading := h }

/-- Section 2 RELATIVE WORLD MOVEMENT of part_003 (identical in
part_004): moveX = sin(steeringAngle) * velocity, moveZ =
cos(steeringAngle) * velocity; worldRef.position.x -= moveX,
worldRef.position.z -= moveZ; worldRef.rotation.set(0, 0, 0). -/
def worldMoveStage (prims : MathPrims) (s : CarState) : CarState :=
  let moveX := prims.sinF s.heading * s.speed
  let moveZ := prims.cosF s.heading * s.speed
  { s with
    worldPos := ⟨s.worldPos.x - moveX, s.worldPos.y, s.worldPos.z - moveZ⟩
    worldRot := ⟨0, 0, 0⟩ }

/-- Section 2 RELATIVE WORLD MOVEMENT of part_002: same moveX / moveZ,
but worldRef.position.x += moveX and worldRef.position.z += moveZ
(that variant drives towards -Z); worldRef.rotation.set(0, 0, 0). -/
def worldMoveStage002 (prims : MathPrims) (s : CarState) : CarState :=
  let moveX := prims.sinF s.heading * s.speed
  let moveZ := prims.cosF s.heading * s.speed
  { s with
    worldPos := ⟨s.worldPos.x + moveX, s.worldPos.y, s.worldPos.z + moveZ⟩
    worldRot := ⟨0, 0, 0⟩ }

/-- Bounds check of part_003 / part_004: if
sqrt(worldPos.x^2 + worldPos.z^2) > worldRadius then isFalling := true.
The source compares the real square root against 400; since both sides
are nonnegative this is equivalent to comparing the squares, which is
how it is rendered here. -/
def boundsStage (s : CarState) : CarState :=
  if s.worldPos.x ^ 2 + s.worldPos.z ^ 2 > worldRadius ^ 2 then
    { s with isFalling := true }
  else s

/-- Section 3 GROUND ALIGNMENT of part_002 / part_003 (the raycast runs
only while not falling): on a Terrain hit set hasLanded := true, set
rotation.y directly from the steering angle and lerp pitch / roll
towards asin(n.x) / -asin(n.z) at rate delta * 5; on a miss, fall only
if hasLanded is already true, else leave the state untouched. -/
def groundStageGuarded (prims : MathPrims) (delta : ℚ) (probe : Option GroundHit)
    (s : CarState) : CarState :=
  if s.isFalling then s else
  match probe with
  | some hit =>
      { s with
        hasLanded := true
        carRot := ⟨lerp s.carRot.x (prims.asinF hit.nx) (delta * 5),
                   s.heading,
                   lerp s.carRot.z (-(prims.asinF hit.nz)) (delta * 5)⟩ }
  | none => if s.hasLanded then { s with isFalling := true } else s

/-- Section 3 GROUND ALIGNMENT of part_004: same hit branch (that
variant has no hasLanded variable at all), but on a miss it always sets
isFalling := true. -/
def groundStage004 (prims : MathPrims) (delta : ℚ) (probe : Option GroundHit)
    (s : CarState) : CarState :=
  if s.isFalling then s else
  match probe with
  | some hit =>
      { s with
        carRot := ⟨lerp s.carRot.x (prims.asinF hit.nx) (delta * 5),
                   s.heading,
                   lerp s.carRot.z (-(prims.asinF hit.nz)) (delta * 5)⟩ }
  | none => { s with isFalling := true }

/-- The local groundY variable of part_003 / part_004: initialized to
-100, overwritten with groundHit.point.y inside the hit branch of the
raycast block (which only runs while not falling). -/
def groundYOf (probe : Option GroundHit) (s : CarState) : ℚ :=
  if s.isFalling then -100 else
  match probe with
  | some hit => hit.pointY
  | none => -100

/-- Respawn block of part_003: worldRef.position.set(0,0,0); zero
velocity, steeringAngle, verticalVelocity; clear isFalling and
hasLanded; carGroup position.y = 1; carGroup rotation.set(0,0,0). -/
def respawnReset003 (s : CarState) : CarState :=
  { s with
    worldPos := ⟨0, 0, 0⟩
    speed := 0
    heading := 0
    isFalling := false
    verticalVelocity := 0
    hasLanded := false
    carPos := { s.carPos with y := 1 }
    carRot := ⟨0, 0, 0⟩ }

/-- Respawn block of part_002: only worldRef.position.x is reset (the z
offset is kept so road segments do not pop); zero velocity,
steeringAngle, verticalVelocity; clear isFalling and hasLanded;
carGroup position.set(0, 0.5, 0); carGroup rotation.set(0,0,0). -/
def respawnReset002 (s : CarState) : CarState :=
  { s with
    worldPos := { s.worldPos with x := 0 }
    speed := 0
    heading := 0
    isFalling := false
    verticalVelocity := 0
    hasLanded := false
    carPos := ⟨0, 1/2, 0⟩
    carRot := ⟨0, 0, 0⟩ }

/-- Respawn block of part_004: as part_003 but that variant has no
hasLanded variable to clear. -/
def respawnReset004 (s : CarState) : CarState :=
  { s with
    worldPos := ⟨0, 0, 0⟩
    speed := 0
    heading := 0
    isFalling := false
    verticalVelocity := 0
    carPos := { s.carPos with y := 1 }
    carRot := ⟨0, 0, 0⟩ }

/-- Falling / stick-to-ground block of part_003: while falling,
verticalVelocity -= gravity and position.y += verticalVelocity, with
the respawn reset firing once position.y drops below -20; while
grounded, position.y is lerped towards groundY at rate delta * 15. -/
def fallStage003 (delta groundY : ℚ) (s : CarState) : CarState :=
  if s.isFalling then
    let vv := s.verticalVelocity - gravity
    let y := s.carPos.y + vv
    if y < -20 then respawnReset003 s
    else { s with verticalVelocity := vv, carPos := { s.carPos with y := y } }
  else
    { s with carPos := { s.carPos with y := lerp s.carPos.y groundY (delta * 15) } }

/-- Falling / stick-to-ground block of part_002: same falling branch
with that variant's respawn reset; while grounded position.y is forced
to 0. -/
def fallStage002 (_delta : ℚ) (s : CarState) : CarState :=
  if s.isFalling then
    let vv := s.verticalVelocity - gravity
    let y := s.carPos.y + vv
    if y < -20 then respawnReset002 s
    else { s with verticalVelocity := vv, carPos := { s.carPos with y := y } }
  else
    { s with carPos := { s.carPos with y := 0 } }

/-- Falling / stick-to-ground block of part_004: as part_003 with that
variant's respawn reset. -/
def fallStage004 (delta groundY : ℚ) (s : CarState) : CarState :=
  if s.isFalling then
    let vv := s.verticalVelocity - gravity
    let y := s.carPos.y + vv
    if y < -20 then respawnReset004 s
    else { s with verticalVelocity := vv, carPos := { s.carPos with y := y } }
  else
    { s with carPos := { s.carPos with y := lerp s.carPos.y groundY (delta * 15) } }

/-- One useFrame simulation step of the part_003 controller, stages in
source order (the cube-collision and camera sections do not read or
write CarState fields other than through their own outputs and are
modelled separately / omitted). -/
def step003 (prims : MathPrims) (delta : ℚ) (inp : Intent)
    (probe : Option GroundHit) (s : CarState) : CarState :=
  let s1 := physicsStage inp s
  let s2 := worldMoveStage prims s1
  let s3 := boundsStage s2
  let gy := groundYOf probe s3
  let s4 := groundStageGuarded prims delta probe s3
  fallStage003 delta gy s4

/-- One useFrame simulation step of the part_002 controller (no bounds
check; its looping and road-boundary checks are commented out in the
source). -/
def step002 (prims : MathPrims) (delta : ℚ) (inp : Intent)
    (probe : Option GroundHit) (s : CarState) : CarState :=
  let s1 := physicsStage002 prims inp s
  let s2 := worldMoveStage002 prims s1
  let s3 := groundStageGuarded prims delta probe s2
  fallStage002 delta s3

/-- One useFrame simulation step of the part_004 controller. -/
def step004 (prims : MathPrims) (delta : ℚ) (inp : Intent)
    (probe : Option GroundHit) (s : CarState) : CarState :=
  let s1 := physicsStage inp s
  let s2 := worldMoveStage prims s1
  let s3 := boundsStage s2
  let gy := groundYOf probe s3
  let s4 := groundStage004 prims delta probe s3
  fallStage004 delta gy s4

/-- Section 5 CUBE COLLISIONS, per cube (identical in all three
variants): skip fallen cubes; cubeGlobal = cube.position + world
position; planar distance = length of (cubeGlobal.x, 0, cubeGlobal.z);
if below 2.5, normalize the full 3D cubeGlobal vector (Three.js
normalize divides by the length, or by 1 when the length is 0),
overwrite its y with 0.5, scale by |velocity| * 1.5 + 0.2 and add the
result to the cube velocity. -/
def cubeImpulse (prims : MathPrims) (worldPos : Vec3) (speed : ℚ)
    (cube : CubeState) : CubeState :=
  if cube.fallen then cube else
  let gx := cube.position.x + worldPos.x
  let gy := cube.position.y + worldPos.y
  let gz := cube.position.z + worldPos.z
  let dist := prims.sqrtF (gx ^ 2 + gz ^ 2)
  if dist < 5/2 then
    let len := prims.sqrtF (gx ^ 2 + gy ^ 2 + gz ^ 2)
    let d := if len = 0 then 1 else len
    let k := |speed| * (3/2) + 1/5
    { cube with
      velocity := ⟨cube.velocity.x + gx / d * k,
                   cube.velocity.y + 1/2 * k,
                   cube.velocity.z + gz / d * k⟩ }
  else cube

/-- Concrete rational instantiation of the float math primitives, used
to evaluate the step at concrete inputs.  It agrees with the float
library functions at every argument at which the concrete statements
below evaluate them: sin 0 = 0, cos 0 = 1, asin 0 = 0, sqrt 4 = 2,
and the double value of Math.sqrt(5) and Math.PI. -/
def primsZero : MathPrims where
  sinF := fun _ => 0
  cosF := fun _ => 1
  asinF := fun _ => 0
  sqrtF := fun q => if q = 4 then 2 else
    if q = 5 then 223606797749979/100000000000000 else 0
  piF := 314159265358979/100000000000000

/-- A fresh-load state: grounded, never landed, at the spawn pose of
part_003 (carGroup starts at (0, 1, 0)), world anchor at the origin. -/
def stateFresh : CarState where
  speed := 0
  heading := 0
  isFalling := false
  hasLanded := false
  verticalVelocity := 0
  carPos := ⟨0, 1, 0⟩
  carRot := ⟨0, 0, 0⟩
  worldPos := ⟨0, 0, 0⟩
  worldRot := ⟨0, 0, 0⟩

/-- A state driving straight (heading 0) at speed 1 with the world
anchor at the origin. -/
def stateDriving : CarState :=
  { stateFresh with speed := 1, hasLanded := true }

/-- A mid-air state: falling at speed 1/2 with some heading, well above
the respawn threshold. -/
def stateFalling : CarState :=
  { stateFresh with speed := 1/2, heading := 1/10, isFalling := true,
                    hasLanded := true }

/-- A falling state already below the respawn depth threshold. -/
def stateFallingDeep : CarState :=
  { stateFalling with carPos := ⟨0, -25, 0⟩ }

/-- Intent with only the forward key held. -/
def intentForward : Intent :=
  ⟨true, false, false, false, false⟩

/-- Intent with no key held. -/
def intentNone : Intent :=
  ⟨false, false, false, false, false⟩

/-- Scenario B cube: a non-fallen prop at world-anchor-local position
(0, 1, 2) at rest. -/
def cubeB : CubeState where
  position := ⟨0, 1, 2⟩
  velocity := ⟨0, 0, 0⟩
  fallen := false

/-!  Projection and stage lemmas  -/

theorem clamp_lo_le (value lo hi : ℚ) : lo ≤ clamp value lo hi :=
  le_max_left lo (min hi value)

theorem clamp_le_hi (value lo hi : ℚ) (h : lo ≤ hi) : clamp value lo hi ≤ hi :=
  max_le h (min_le_left hi value)

theorem physicsStage_falling (inp : Intent) (s : CarState)
    (h : s.isFalling = true) : physicsStage inp s = s := by
  simp [physicsStage, h]

theorem physicsStage002_falling (prims : MathPrims) (inp : Intent) (s : CarState)
    (h : s.isFalling = true) : physicsStage002 prims inp s = s := by
  simp [physicsStage002, h]

@[simp] theorem physicsStage_isFalling (inp : Intent) (s : CarState) :
    (physicsStage inp s).isFalling = s.isFalling := by
  unfold physicsStage; split <;> rfl

@[simp] theorem physicsStage_hasLanded (inp : Intent) (s : CarState) :
    (physicsStage inp s).hasLanded = s.hasLanded := by
  unfold physicsStage; split <;> rfl

@[simp] theorem physicsStage_verticalVelocity (inp : Intent) (s : CarState) :
    (physicsStage inp s).verticalVelocity = s.verticalVelocity := by
  unfold physicsStage; split <;> rfl

@[simp] theorem physicsStage_carPos (inp : Intent) (s : CarState) :
    (physicsStage inp s).carPos = s.carPos := by
  unfold physicsStage; split <;> rfl

@[simp] theorem physicsStage_worldPos (inp : Intent) (s : CarState) :
    (physicsStage inp s).worldPos = s.worldPos := by
  unfold physicsStage; split <;> rfl

@[simp] theorem physicsStage002_isFalling (prims : MathPrims) (inp : Intent) (s : CarState) :
    (physicsStage002 prims inp s).isFalling = s.isFalling := by
  unfold physicsStage002; split <;> rfl

@[simp] theorem physicsStage002_hasLanded (prims : MathPrims) (inp : Intent) (s : CarState) :
    (physicsStage002 prims inp s).hasLanded = s.hasLanded := by
  unfold physicsStage002; split <;> rfl

@[simp] theorem physicsStage002_verticalVelocity (prims : MathPrims) (inp : Intent) (s : CarState) :
    (physicsStage002 prims inp s).verticalVelocity = s.verticalVelocity := by
  unfold physicsStage002; split <;> rfl

@[simp] theorem physicsStage002_carPos (prims : MathPrims) (inp : Intent) (s : CarState) :
    (physicsStage002 prims inp s).carPos = s.carPos := by
  unfold physicsStage002; split <;> rfl

theorem physicsStage_speed_bounds (inp : Intent) (s : CarState)
    (hlo : -(maxSpeed * (1/2)) ≤ s.speed) (hhi : s.speed ≤ maxSpeed) :
    -(maxSpeed * (1/2)) ≤ (physicsStage inp s).speed
      ∧ (physicsStage inp s).speed ≤ maxSpeed := by
  unfold physicsStage
  split
  · exact ⟨hlo, hhi⟩
  · refine ⟨clamp_lo_le _ _ _, clamp_le_hi _ _ _ ?_⟩
    norm_num [maxSpeed]

theorem physicsStage002_speed_bounds (prims : MathPrims) (inp : Intent) (s : CarState)
    (hlo : -(maxSpeed * (1/2)) ≤ s.speed) (hhi : s.speed ≤ maxSpeed) :
    -(maxSpeed * (1/2)) ≤ (physicsStage002 prims inp s).speed
      ∧ (physicsStage002 prims inp s).speed ≤ maxSpeed := by
  unfold physicsStage002
  split
  · exact ⟨hlo, hhi⟩
  · refine ⟨clamp_lo_le _ _ _, clamp_le_hi _ _ _ ?_⟩
    norm_num [maxSpeed]

@[simp] theorem worldMoveStage_speed (prims : MathPrims) (s : CarState) :
    (worldMoveStage prims s).speed = s.speed := rfl

@[simp] theorem worldMoveStage_heading (prims : MathPrims) (s : CarState) :
    (worldMoveStage prims s).heading = s.heading := rfl

@[simp] theorem worldMoveStage_isFalling (prims : MathPrims) (s : CarState) :
    (worldMoveStage prims s).isFalling = s.isFalling := rfl

@[simp] theorem worldMoveStage_hasLanded (prims : MathPrims) (s : CarState) :
    (worldMoveStage prims s).hasLanded = s.hasLanded := rfl

@[simp] theorem worldMoveStage_verticalVelocity (prims : MathPrims) (s : CarState) :
    (worldMoveStage prims s).verticalVelocity = s.verticalVelocity := rfl

@[simp] theorem worldMoveStage_carPos (prims : MathPrims) (s : CarState) :
    (worldMoveStage prims s).carPos = s.carPos := rfl

@[simp] theorem worldMoveStage_worldRot (prims : MathPrims) (s : CarState) :
    (worldMoveStage prims s).worldRot = ⟨0, 0, 0⟩ := rfl

@[simp] theorem worldMoveStage_worldPos_x (prims : MathPrims) (s : CarState) :
    (worldMoveStage prims s).worldPos.x
      = s.worldPos.x - prims.sinF s.heading * s.speed := rfl

@[simp] theorem worldMoveStage_worldPos_z (prims : MathPrims) (s : CarState) :
    (worldMoveStage prims s).worldPos.z
      = s.worldPos.z - prims.cosF s.heading * s.speed := rfl

@[simp] theorem worldMoveStage002_speed (prims : MathPrims) (s : CarState) :
    (worldMoveStage002 prims s).speed = s.speed := rfl

@[simp] theorem worldMoveStage002_heading (prims : MathPrims) (s : CarState) :
    (worldMoveStage002 prims s).heading = s.heading := rfl

@[simp] theorem worldMoveStage002_isFalling (prims : MathPrims) (s : CarState) :
    (worldMoveStage002 prims s).isFalling = s.isFalling := rfl

@[simp] theorem worldMoveStage002_hasLanded (prims : MathPrims) (s : CarState) :
    (worldMoveStage002 prims s).hasLanded = s.hasLanded := rfl

@[simp] theorem worldMoveStage002_verticalVelocity (prims : MathPrims) (s : CarState) :
    (worldMoveStage002 prims s).verticalVelocity = s.verticalVelocity := rfl

@[simp] theorem worldMoveStage002_carPos (prims : MathPrims) (s : CarState) :
    (worldMoveStage002 prims s).carPos = s.carPos := rfl

@[simp] theorem worldMoveStage002_worldRot (prims : MathPrims) (s : CarState) :
    (worldMoveStage002 prims s).worldRot = ⟨0, 0, 0⟩ := rfl

@[simp] theorem boundsStage_speed (s : CarState) :
    (boundsStage s).speed = s.speed := by
  unfold boundsStage; split <;> rfl

@[simp] theorem boundsStage_heading (s : CarState) :
    (boundsStage s).heading = s.heading := by
  unfold boundsStage; split <;> rfl

@[simp] theorem boundsStage_hasLanded (s : CarState) :
    (boundsStage s).hasLanded = s.hasLanded := by
  unfold boundsStage; split <;> rfl

@[simp] theorem boundsStage_verticalVelocity (s : CarState) :
    (boundsStage s).verticalVelocity = s.verticalVelocity := by
  unfold boundsStage; split <;> rfl

@[simp] theorem boundsStage_carPos (s : CarState) :
    (boundsStage s).carPos = s.carPos := by
  unfold boundsStage; split <;> rfl

@[simp] theorem boundsStage_worldPos (s : CarState) :
    (boundsStage s).worldPos = s.worldPos := by
  unfold boundsStage; split <;> rfl

@[simp] theorem boundsStage_worldRot (s : CarState) :
    (boundsStage s).worldRot = s.worldRot := by
  unfold boundsStage; split <;> rfl

theorem boundsStage_falling (s : CarState) (h : s.isFalling = true) :
    boundsStage s = s := by
  unfold boundsStage
  split
  · cases s; simp_all
  · rfl

theorem groundStageGuarded_falling (prims : MathPrims) (delta : ℚ)
    (probe : Option GroundHit) (s : CarState) (h : s.isFalling = true) :
    groundStageGuarded prims delta probe s = s := by
  simp [groundStageGuarded, h]

theorem groundStage004_falling (prims : MathPrims) (delta : ℚ)
    (probe : Option GroundHit) (s : CarState) (h : s.isFalling = true) :
    groundStage004 prims delta probe s = s := by
  simp [groundStage004, h]

@[simp] theorem groundStageGuarded_speed (prims : MathPrims) (delta : ℚ)
    (probe : Option GroundHit) (s : CarState) :
    (groundStageGuarded prims delta probe s).speed = s.speed := by
  cases probe <;> unfold groundStageGuarded <;> split_ifs <;> rfl

@[simp] theorem groundStageGuarded_heading (prims : MathPrims) (delta : ℚ)
    (probe : Option GroundHit) (s : CarState) :
    (groundStageGuarded prims delta probe s).heading = s.heading := by
  cases probe <;> unfold groundStageGuarded <;> split_ifs <;> rfl

@[simp] theorem groundStageGuarded_verticalVelocity (prims : MathPrims) (delta : ℚ)
    (probe : Option GroundHit) (s : CarState) :
    (groundStageGuarded prims delta probe s).verticalVelocity = s.verticalVelocity := by
  cases probe <;> unfold groundStageGuarded <;> split_ifs <;> rfl

@[simp] theorem groundStageGuarded_carPos (prims : MathPrims) (delta : ℚ)
    (probe : Option GroundHit) (s : CarState) :
    (groundStageGuarded prims delta probe s).carPos = s.carPos := by
  cases probe <;> unfold groundStageGuarded <;> split_ifs <;> rfl

@[simp] theorem groundStageGuarded_worldPos (prims : MathPrims) (delta : ℚ)
    (probe : Option GroundHit) (s : CarState) :
    (groundStageGuarded prims delta probe s).worldPos = s.worldPos := by
  cases probe <;> unfold groundStageGuarded <;> split_ifs <;> rfl

@[simp] theorem groundStageGuarded_worldRot (prims : MathPrims) (delta : ℚ)
    (probe : Option GroundHit) (s : CarState) :
    (groundStageGuarded prims delta probe s).worldRot = s.worldRot := by
  cases probe <;> unfold groundStageGuarded <;> split_ifs <;> rfl

@[simp] theorem groundStage004_speed (prims : MathPrims) (delta : ℚ)
    (probe : Option GroundHit) (s : CarState) :
    (groundStage004 prims delta probe s).speed = s.speed := by
  cases probe <;> unfold groundStage004 <;> split_ifs <;> rfl

@[simp] theorem groundStage004_heading (prims : MathPrims) (delta : ℚ)
    (probe : Option GroundHit) (s : CarState) :
    (groundStage004 prims delta probe s).heading = s.heading := by
  cases probe <;> unfold groundStage004 <;> split_ifs <;> rfl

@[simp] theorem groundStage004_verticalVelocity (prims : MathPrims) (delta : ℚ)
    (probe : Option GroundHit) (s : CarState) :
    (groundStage004 prims delta probe s).verticalVelocity = s.verticalVelocity := by
  cases probe <;> unfold groundStage004 <;> split_ifs <;> rfl

@[simp] theorem groundStage004_carPos (prims : MathPrims) (delta : ℚ)
    (probe : Option GroundHit) (s : CarState) :
    (groundStage004 prims delta probe s).carPos = s.carPos := by
  cases probe <;> unfold groundStage004 <;> split_ifs <;> rfl

@[simp] theorem groundStage004_worldPos (prims : MathPrims) (delta : ℚ)
    (probe : Option GroundHit) (s : CarState) :
    (groundStage004 prims delta probe s).worldPos = s.worldPos := by
  cases probe <;> unfold groundStage004 <;> split_ifs <;> rfl

@[simp] theorem groundStage004_worldRot (prims : MathPrims) (delta : ℚ)
    (probe : Option GroundHit) (s : CarState) :
    (groundStage004 prims delta probe s).worldRot = s.worldRot := by
  cases probe <;> unfold groundStage004 <;> split_ifs <;> rfl

theorem fallStage003_falling_spec (delta groundY : ℚ) (s : CarState)
    (h : s.isFalling = true) :
    fallStage003 delta groundY s =
      if s.carPos.y + (s.verticalVelocity - gravity) < -20 then respawnReset003 s
      else { s with verticalVelocity := s.verticalVelocity - gravity,
                    carPos := { s.carPos with y := s.carPos.y + (s.verticalVelocity - gravity) } } := by
  simp [fallStage003, h]

theorem fallStage002_falling_spec (delta : ℚ) (s : CarState)
    (h : s.isFalling = true) :
    fallStage002 delta s =
      if s.carPos.y + (s.verticalVelocity - gravity) < -20 then respawnReset002 s
      else { s with verticalVelocity := s.verticalVelocity - gravity,
                    carPos := { s.carPos with y := s.carPos.y + (s.verticalVelocity - gravity) } } := by
  simp [fallStage002, h]

theorem fallStage004_falling_spec (delta groundY : ℚ) (s : CarState)
    (h : s.isFalling = true) :
    fallStage004 delta groundY s =
      if s.carPos.y + (s.verticalVelocity - gravity) < -20 then respawnReset004 s
      else { s with verticalVelocity := s.verticalVelocity - gravity,
                    carPos := { s.carPos with y := s.carPos.y + (s.verticalVelocity - gravity) } } := by
  simp [fallStage004, h]

theorem fallStage003_grounded_spec (delta groundY : ℚ) (s : CarState)
    (h : s.isFalling = false) :
    fallStage003 delta groundY s =
      { s with carPos := { s.carPos with y := lerp s.carPos.y groundY (delta * 15) } } := by
  simp [fallStage003, h]

theorem fallStage002_grounded_spec (delta : ℚ) (s : CarState)
    (h : s.isFalling = false) :
    fallStage002 delta s = { s with carPos := { s.carPos with y := 0 } } := by
  simp [fallStage002, h]

@[simp] theorem fallStage003_worldRot (delta groundY : ℚ) (s : CarState) :
    (fallStage003 delta groundY s).worldRot = s.worldRot := by
  simp only [fallStage003, respawnReset003]; split_ifs <;> rfl

@[simp] theorem fallStage002_worldRot (delta : ℚ) (s : CarState) :
    (fallStage002 delta s).worldRot = s.worldRot := by
  simp only [fallStage002, respawnReset002]; split_ifs <;> rfl

@[simp] theorem fallStage004_worldRot (delta groundY : ℚ) (s : CarState) :
    (fallStage004 delta groundY s).worldRot = s.worldRot := by
  simp only [fallStage004, respawnReset004]; split_ifs <;> rfl

theorem fallStage003_speed_cases (delta groundY : ℚ) (s : CarState) :
    (fallStage003 delta groundY s).speed = s.speed
      ∨ (fallStage003 delta groundY s).speed = 0 := by
  simp only [fallStage003, respawnReset003]
  split_ifs <;> simp

theorem fallStage002_speed_cases (delta : ℚ) (s : CarState) :
    (fallStage002 delta s).speed = s.speed
      ∨ (fallStage002 delta s).speed = 0 := by
  simp only [fallStage002, respawnReset002]
  split_ifs <;> simp

/-!  Claim theorems  -/

/-- Claim C1 counterexample: in the part_002 controller the world
anchor position is incremented by the displacement, not decremented.
At heading 0 and speed 1 (sin 0 = 0, cos 0 = 1) the claim predicts the
anchor z to decrease by cos(0) * 1, but the code increases it. -/
theorem c1_counterexample :
    (worldMoveStage002 primsZero stateDriving).worldPos.z ≠
      stateDriving.worldPos.z -
        primsZero.cosF stateDriving.heading * stateDriving.speed := by
  norm_num [worldMoveStage002, primsZero, stateDriving, stateFresh]

/-- Claim C1 (amended): every variant computes moveX = sin(heading) *
speed and moveZ = cos(heading) * speed; the part_003 / part_004 world
movement subtracts the displacement from the anchor position, while the
part_002 variant adds it (its vehicle faces -Z, so the world still
translates opposite to that vehicle's travel direction). -/
theorem c1_world_translation :
    ∀ (prims : MathPrims) (s : CarState),
      (worldMoveStage prims s).worldPos.x
          = s.worldPos.x - prims.sinF s.heading * s.speed
      ∧ (worldMoveStage prims s).worldPos.z
          = s.worldPos.z - prims.cosF s.heading * s.speed
      ∧ (worldMoveStage002 prims s).worldPos.x
          = s.worldPos.x + prims.sinF s.heading * s.speed
      ∧ (worldMoveStage002 prims s).worldPos.z
          = s.worldPos.z + prims.cosF s.heading * s.speed := by
  intro prims s
  exact ⟨rfl, rfl, rfl, rfl⟩

/-- Claim C2 counterexample: the part_004 variant has no hasEverLanded
guard.  On a fresh-load state (grounded, never landed) a single probe
miss already flips it into the FALLING state, instead of leaving the
state unchanged as the claim asserts. -/
theorem c2_counterexample :
    stateFresh.hasLanded = false ∧ stateFresh.isFalling = false ∧
      (groundStage004 primsZero (1/60) none stateFresh).isFalling = true := by
  exact ⟨rfl, rfl, rfl⟩

/-- Claim C2 (amended): in the part_002 / part_003 ground-probe block
the guard holds as claimed: while grounded, a probe miss with
hasEverLanded false leaves the state completely unchanged, a miss with
hasEverLanded true transitions to FALLING (changing nothing else), and
a probe hit sets hasEverLanded.  The part_004 variant lacks the guard
and transitions to FALLING on every probe miss while grounded. -/
theorem c2_ground_probe_guard :
    ∀ (prims : MathPrims) (delta : ℚ) (s : CarState),
      s.isFalling = false →
      (s.hasLanded = false → groundStageGuarded prims delta none s = s)
      ∧ (s.hasLanded = true →
          groundStageGuarded prims delta none s = { s with isFalling := true })
      ∧ (∀ hit : GroundHit,
          (groundStageGuarded prims delta (some hit) s).hasLanded = true) := by
  intro prims delta s h
  refine ⟨fun hl => ?_, fun hl => ?_, fun hit => ?_⟩
  · simp [groundStageGuarded, h, hl]
  · simp [groundStageGuarded, h, hl]
  · simp [groundStageGuarded, h]

/-- Claim C2 witness: the guard theorem evaluated at the fresh-load
state, for both a probe miss and a flat-ground probe hit. -/
theorem c2_witness :
    stateFresh.isFalling = false ∧
      groundStageGuarded primsZero (1/60) none stateFresh = stateFresh ∧
      (groundStageGuarded primsZero (1/60) (some ⟨0, 0, 0⟩) stateFresh).hasLanded = true :=
  ⟨rfl,
   (c2_ground_probe_guard primsZero (1/60) stateFresh rfl).1 rfl,
   (c2_ground_probe_guard primsZero (1/60) stateFresh rfl).2.2 ⟨0, 0, 0⟩⟩

/-- Claim C3 counterexample: while falling, holding forward does not
accelerate — the whole movement-physics block is gated on !isFalling,
so the speed stays frozen instead of gaining the claimed acceleration
increment. -/
theorem c3_counterexample :
    (physicsStage intentForward stateFalling).speed ≠
      stateFalling.speed + acceleration := by
  norm_num [physicsStage, stateFalling, stateFresh, acceleration]

/-- Claim C3 (amended): while the vehicle is FALLING the kinematics
block is skipped entirely in every variant: neither speed nor heading
(nor anything else in the state) is updated by the
acceleration / coast / brake or steering rules; they stay frozen until
the respawn reset. -/
theorem c3_kinematics_frozen_while_falling :
    ∀ (prims : MathPrims) (inp : Intent) (s : CarState),
      s.isFalling = true →
      physicsStage inp s = s ∧ physicsStage002 prims inp s = s := by
  intro prims inp s h
  exact ⟨physicsStage_falling inp s h, physicsStage002_falling prims inp s h⟩

/-- Claim C3 witness: the frozen-kinematics theorem evaluated at the
concrete mid-air state with the forward key held. -/
theorem c3_witness :
    stateFalling.isFalling = true ∧
      physicsStage intentForward stateFalling = stateFalling ∧
      physicsStage002 primsZero intentForward stateFalling = stateFalling :=
  ⟨rfl,
   (c3_kinematics_frozen_while_falling primsZero intentForward stateFalling rfl).1,
   (c3_kinematics_frozen_while_falling primsZero intentForward stateFalling rfl).2⟩

/-- Claim C8: the respawn reset of part_003 and of part_002 is
idempotent on the vehicle state — every VehicleState field it writes is
a fixed constant, so applying it twice equals applying it once. -/
theorem c8_respawn_idempotent :
    ∀ s : CarState,
      respawnReset003 (respawnReset003 s) = respawnReset003 s
      ∧ respawnReset002 (respawnReset002 s) = respawnReset002 s := by
  intro s
  exact ⟨rfl, rfl⟩

/-- Claim C9: after every simulation step of the part_003 and part_002
controllers, whatever the prior state, input, probe result and frame
time, the world anchor rotation is the identity (0, 0, 0): the world
movement stage resets it every frame and no later stage writes it. -/
theorem c9_world_rotation_identity :
    ∀ (prims : MathPrims) (delta : ℚ) (inp : Intent)
      (probe : Option GroundHit) (s : CarState),
      (step003 prims delta inp probe s).worldRot = ⟨0, 0, 0⟩
      ∧ (step002 prims delta inp probe s).worldRot = ⟨0, 0, 0⟩ := by
  intro prims delta inp probe s
  constructor
  · simp [step003]
  · simp [step002]

theorem physicsStage_coast_zero (l r : Bool) (s : CarState)
    (hf : s.isFalling = false) (hs : s.speed = 0) :
    physicsStage ⟨false, false, l, r, false⟩ s = s := by
  have hev : physicsStage ⟨false, false, l, r, false⟩ s
      = { s with speed := 0, heading := s.heading } := by
    simp [physicsStage, hf, hs, clamp, maxSpeed]
    norm_num [max_def, min_def]
  rw [hev]
  cases s
  simp_all

theorem groundFall_preserves (prims : MathPrims) (delta gy : ℚ)
    (probe : Option GroundHit) (u : CarState)
    (hv : u.verticalVelocity = 0) (hy : (-19 : ℚ) ≤ u.carPos.y) :
    (fallStage003 delta gy (groundStageGuarded prims delta probe u)).heading = u.heading
    ∧ (fallStage003 delta gy (groundStageGuarded prims delta probe u)).speed = u.speed := by
  set w := groundStageGuarded prims delta probe u with hw
  have hwh : w.heading = u.heading := by simp [hw]
  have hws : w.speed = u.speed := by simp [hw]
  have hwv : w.verticalVelocity = 0 := by simp [hw, hv]
  have hwp : w.carPos = u.carPos := by simp [hw]
  by_cases hfall : w.isFalling = true
  · rw [fallStage003_falling_spec delta gy w hfall]
    have hcond : ¬(w.carPos.y + (w.verticalVelocity - gravity) < -20) := by
      rw [hwv, hwp]
      norm_num [gravity]
      linarith
    rw [if_neg hcond]
    exact ⟨hwh, hws⟩
  · have hfall' : w.isFalling = false := by
      cases hfb : w.isFalling
      · rfl
      · exact absurd hfb hfall
    rw [fallStage003_grounded_spec delta gy w hfall']
    exact ⟨hwh, hws⟩

/-- Claim C4: for every frame, every intent vector and every prior
speed within bounds, one simulation step of the part_003 and of the
part_002 controller keeps the speed in
[-maxSpeed * 0.5, maxSpeed] = [-0.6, 1.2], including frames spent in
the FALLING state (where the speed is either frozen or zeroed by the
respawn reset). -/
theorem c4_speed_clamp :
    ∀ (prims : MathPrims) (delta : ℚ) (inp : Intent)
      (probe : Option GroundHit) (s : CarState),
      -(maxSpeed * (1/2)) ≤ s.speed → s.speed ≤ maxSpeed →
      (-(maxSpeed * (1/2)) ≤ (step003 prims delta inp probe s).speed
        ∧ (step003 prims delta inp probe s).speed ≤ maxSpeed)
      ∧ (-(maxSpeed * (1/2)) ≤ (step002 prims delta inp probe s).speed
        ∧ (step002 prims delta inp probe s).speed ≤ maxSpeed) := by
  intro prims delta inp probe s hlo hhi
  have h3 := physicsStage_speed_bounds inp s hlo hhi
  have h2 := physicsStage002_speed_bounds prims inp s hlo hhi
  constructor
  · have hst : step003 prims delta inp probe s
        = fallStage003 delta
            (groundYOf probe (boundsStage (worldMoveStage prims (physicsStage inp s))))
            (groundStageGuarded prims delta probe
              (boundsStage (worldMoveStage prims (physicsStage inp s)))) := rfl
    rw [hst]
    rcases fallStage003_speed_cases delta
        (groundYOf probe (boundsStage (worldMoveStage prims (physicsStage inp s))))
        (groundStageGuarded prims delta probe
          (boundsStage (worldMoveStage prims (physicsStage inp s)))) with h | h
    · rw [h]; simpa using h3
    · rw [h]; norm_num [maxSpeed]
  · have hst : step002 prims delta inp probe s
        = fallStage002 delta
            (groundStageGuarded prims delta probe
              (worldMoveStage002 prims (physicsStage002 prims inp s))) := rfl
    rw [hst]
    rcases fallStage002_speed_cases delta
        (groundStageGuarded prims delta probe
          (worldMoveStage002 prims (physicsStage002 prims inp s))) with h | h
    · rw [h]; simpa using h2
    · rw [h]; norm_num [maxSpeed]

/-- Claim C4 witness: the speed-bound theorem evaluated at the concrete
driving state with the forward key held and a probe miss. -/
theorem c4_witness :
    (-(maxSpeed * (1/2)) ≤ stateDriving.speed ∧ stateDriving.speed ≤ maxSpeed) ∧
      ((-(maxSpeed * (1/2)) ≤ (step003 primsZero (1/60) intentForward none stateDriving).speed
        ∧ (step003 primsZero (1/60) intentForward none stateDriving).speed ≤ maxSpeed)
      ∧ (-(maxSpeed * (1/2)) ≤ (step002 primsZero (1/60) intentForward none stateDriving).speed
        ∧ (step002 primsZero (1/60) intentForward none stateDriving).speed ≤ maxSpeed)) :=
  ⟨⟨by norm_num [stateDriving, stateFresh, maxSpeed],
    by norm_num [stateDriving, stateFresh, maxSpeed]⟩,
   c4_speed_clamp primsZero (1/60) intentForward none stateDriving
     (by norm_num [stateDriving, stateFresh, maxSpeed])
     (by norm_num [stateDriving, stateFresh, maxSpeed])⟩

/-- Claim C6: once the part_003 controller is FALLING, the only way a
simulation step returns to GROUNDED is the respawn transition, i.e. the
local y after this frame's gravity integration dropping below -20 (the
raycast is gated on !isFalling, so ground support can never be
re-acquired mid-fall). -/
theorem c6_falling_exits_only_by_respawn :
    ∀ (prims : MathPrims) (delta : ℚ) (inp : Intent)
      (probe : Option GroundHit) (s : CarState),
      s.isFalling = true →
      ((step003 prims delta inp probe s).isFalling = false ↔
        s.carPos.y + (s.verticalVelocity - gravity) < -20) := by
  intro prims delta inp probe s h
  have h1 : physicsStage inp s = s := physicsStage_falling inp s h
  have hst : step003 prims delta inp probe s
      = fallStage003 delta (groundYOf probe (boundsStage (worldMoveStage prims s)))
          (groundStageGuarded prims delta probe (boundsStage (worldMoveStage prims s))) := by
    simp only [step003, h1]
  have h2 : (worldMoveStage prims s).isFalling = true := by simp [h]
  have h3 : boundsStage (worldMoveStage prims s) = worldMoveStage prims s :=
    boundsStage_falling _ h2
  rw [hst, h3, groundStageGuarded_falling prims delta probe _ h2,
      fallStage003_falling_spec _ _ _ h2]
  simp only [worldMoveStage_carPos, worldMoveStage_verticalVelocity]
  split_ifs with hc
  · simp [respawnReset003, hc]
  · simp [h, hc]

/-- Claim C6 witness: the theorem evaluated at a falling state already
below the respawn depth, where the step does return to GROUNDED. -/
theorem c6_witness :
    stateFallingDeep.isFalling = true ∧
      ((step003 primsZero (1/60) intentNone none stateFallingDeep).isFalling = false ↔
        stateFallingDeep.carPos.y +
          (stateFallingDeep.verticalVelocity - gravity) < -20) :=
  ⟨rfl, c6_falling_exits_only_by_respawn primsZero (1/60) intentNone none
          stateFallingDeep rfl⟩

/-- Claim C7: while grounded with speed exactly 0 and no
forward / backward / brake input, one part_003 simulation step leaves
the heading unchanged for every combination of the left and right
intent flags, and the speed stays exactly 0 (the steering deadzone
|speed| > 0.01 is never entered).  The extra hypotheses that the
vertical velocity is 0 and the local y is at least -19 hold in every
grounded state the controller can actually reach (verticalVelocity is
only ever nonzero while falling). -/
theorem c7_zero_speed_steering_deadzone :
    ∀ (prims : MathPrims) (delta : ℚ) (probe : Option GroundHit)
      (l r : Bool) (s : CarState),
      s.isFalling = false → s.speed = 0 → s.verticalVelocity = 0 →
      (-19 : ℚ) ≤ s.carPos.y →
      (step003 prims delta ⟨false, false, l, r, false⟩ probe s).heading = s.heading
      ∧ (step003 prims delta ⟨false, false, l, r, false⟩ probe s).speed = 0 := by
  intro prims delta probe l r s hf hs hv hy
  have h1 : physicsStage ⟨false, false, l, r, false⟩ s = s :=
    physicsStage_coast_zero l r s hf hs
  have hst : step003 prims delta ⟨false, false, l, r, false⟩ probe s
      = fallStage003 delta (groundYOf probe (boundsStage (worldMoveStage prims s)))
          (groundStageGuarded prims delta probe (boundsStage (worldMoveStage prims s))) := by
    simp only [step003, h1]
  have hu1 : (boundsStage (worldMoveStage prims s)).verticalVelocity = 0 := by
    simp [hv]
  have hu2 : (-19 : ℚ) ≤ (boundsStage (worldMoveStage prims s)).carPos.y := by
    simp [hy]
  have hpres := groundFall_preserves prims delta
      (groundYOf probe (boundsStage (worldMoveStage prims s))) probe
      (boundsStage (worldMoveStage prims s)) hu1 hu2
  rw [hst]
  refine ⟨?_, ?_⟩
  · rw [hpres.1]; simp
  · rw [hpres.2]; simp [hs]

/-- Claim C7 witness: the deadzone theorem evaluated at the fresh-load
state with both steering keys held. -/
theorem c7_witness :
    (stateFresh.isFalling = false ∧ stateFresh.speed = 0 ∧
      stateFresh.verticalVelocity = 0 ∧ (-19 : ℚ) ≤ stateFresh.carPos.y) ∧
      ((step003 primsZero (1/60) ⟨false, false, true, true, false⟩ none stateFresh).heading
          = stateFresh.heading
      ∧ (step003 primsZero (1/60) ⟨false, false, true, true, false⟩ none stateFresh).speed = 0) :=
  ⟨⟨rfl, rfl, rfl, by norm_num [stateFresh]⟩,
   c7_zero_speed_steering_deadzone primsZero (1/60) none true true stateFresh
     rfl rfl rfl (by norm_num [stateFresh])⟩

/-- Claim C10: while the part_003 / part_004 controller is FALLING (and
the respawn threshold is not crossed this frame), the simulation step
leaves speed and heading untouched, yet the world-movement section
still runs unconditionally: the anchor keeps translating by
(sin(heading) * speed, 0, cos(heading) * speed) computed from the
frozen values. -/
theorem c10_frozen_scroll_while_falling :
    ∀ (prims : MathPrims) (delta : ℚ) (inp : Intent)
      (probe : Option GroundHit) (s : CarState),
      s.isFalling = true →
      (-20 : ℚ) ≤ s.carPos.y + (s.verticalVelocity - gravity) →
      ((step003 prims delta inp probe s).speed = s.speed
        ∧ (step003 prims delta inp probe s).heading = s.heading
        ∧ (step003 prims delta inp probe s).worldPos.x
            = s.worldPos.x - prims.sinF s.heading * s.speed
        ∧ (step003 prims delta inp probe s).worldPos.z
            = s.worldPos.z - prims.cosF s.heading * s.speed)
      ∧ ((step004 prims delta inp probe s).speed = s.speed
        ∧ (step004 prims delta inp probe s).heading = s.heading
        ∧ (step004 prims delta inp probe s).worldPos.x
            = s.worldPos.x - prims.sinF s.heading * s.speed
        ∧ (step004 prims delta inp probe s).worldPos.z
            = s.worldPos.z - prims.cosF s.heading * s.speed) := by
  intro prims delta inp probe s h hnr
  have h1 : physicsStage inp s = s := physicsStage_falling inp s h
  have h2 : (worldMoveStage prims s).isFalling = true := by simp [h]
  have h3 : boundsStage (worldMoveStage prims s) = worldMoveStage prims s :=
    boundsStage_falling _ h2
  have hcond : ¬((worldMoveStage prims s).carPos.y +
      ((worldMoveStage prims s).verticalVelocity - gravity) < -20) := by
    simp only [worldMoveStage_carPos, worldMoveStage_verticalVelocity]
    linarith
  constructor
  · have hst : step003 prims delta inp probe s
        = fallStage003 delta (groundYOf probe (boundsStage (worldMoveStage prims s)))
            (groundStageGuarded prims delta probe (boundsStage (worldMoveStage prims s))) := by
      simp only [step003, h1]
    rw [hst, h3, groundStageGuarded_falling prims delta probe _ h2,
        fallStage003_falling_spec _ _ _ h2, if_neg hcond]
    refine ⟨by simp, by simp, by simp, by simp⟩
  · have hst : step004 prims delta inp probe s
        = fallStage004 delta (groundYOf probe (boundsStage (worldMoveStage prims s)))
            (groundStage004 prims delta probe (boundsStage (worldMoveStage prims s))) := by
      simp only [step004, h1]
    rw [hst, h3, groundStage004_falling prims delta probe _ h2,
        fallStage004_falling_spec _ _ _ h2, if_neg hcond]
    refine ⟨by simp, by simp, by simp, by simp⟩

/-- Claim C10 witness: the frozen-scroll theorem evaluated at the
concrete mid-air state with the forward key held. -/
theorem c10_witness :
    (stateFalling.isFalling = true ∧
      (-20 : ℚ) ≤ stateFalling.carPos.y + (stateFalling.verticalVelocity - gravity)) ∧
      (((step003 primsZero (1/60) intentForward none stateFalling).speed = stateFalling.speed
        ∧ (step003 primsZero (1/60) intentForward none stateFalling).heading = stateFalling.heading
        ∧ (step003 primsZero (1/60) intentForward none stateFalling).worldPos.x
            = stateFalling.worldPos.x -
                primsZero.sinF stateFalling.heading * stateFalling.speed
        ∧ (step003 primsZero (1/60) intentForward none stateFalling).worldPos.z
            = stateFalling.worldPos.z -
                primsZero.cosF stateFalling.heading * stateFalling.speed)
      ∧ ((step004 primsZero (1/60) intentForward none stateFalling).speed = stateFalling.speed
        ∧ (step004 primsZero (1/60) intentForward none stateFalling).heading = stateFalling.heading
        ∧ (step004 primsZero (1/60) intentForward none stateFalling).worldPos.x
            = stateFalling.worldPos.x -
                primsZero.sinF stateFalling.heading * stateFalling.speed
        ∧ (step004 primsZero (1/60) intentForward none stateFalling).worldPos.z
            = stateFalling.worldPos.z -
                primsZero.cosF stateFalling.heading * stateFalling.speed)) :=
  ⟨⟨rfl, by norm_num [stateFalling, stateFresh, gravity]⟩,
   c10_frozen_scroll_while_falling primsZero (1/60) intentForward none stateFalling
     rfl (by norm_num [stateFalling, stateFresh, gravity])⟩

/-- Claim C5 counterexample: in Scenario B (world anchor at the origin,
prop at local (0, 1, 2), speed 0.5) the z-velocity gained by the prop
is not 0.5 * gainFactor + baseImpulse = 0.95: the code normalizes the
full 3D offset (0, 1, 2), whose length is sqrt 5 (the double value of
Math.sqrt(5) is 2.23606797749979), before overriding the y component,
so the z gain is 0.95 * 2 / sqrt 5, roughly 0.85. -/
theorem c5_counterexample :
    (cubeImpulse primsZero ⟨0, 0, 0⟩ (1/2) cubeB).velocity.z - cubeB.velocity.z
      ≠ 1/2 * (3/2) + 1/5 := by
  have habs : |(1 : ℚ)/2| = 1/2 := by
    rw [abs_of_pos]
    norm_num
  norm_num [cubeImpulse, cubeB, primsZero, habs]

/-- Claim C5 (amended): in Scenario B the planar distance is 2.0 < 2.5
and the impulse is applied; the scalar 0.5 * gainFactor + baseImpulse
= 0.95 multiplies the direction vector obtained by normalizing the full
3D offset (0, 1, 2) and then overriding its y with 0.5, so the prop
velocity gains z-component 0.95 * 2 / sqrt 5 = 1.9 / sqrt 5 (about
0.85, not 0.95) and y-component 0.95 * 0.5 = 0.475.  The statement
holds for every rational stand-in of the float square root that is
exact at 4 and within [2.2, 2.3] at 5 (Math.sqrt(5) = 2.2360679...
qualifies). -/
theorem c5_scenario_b :
    ∀ prims : MathPrims,
      prims.sqrtF 4 = 2 → 11/5 ≤ prims.sqrtF 5 → prims.sqrtF 5 ≤ 23/10 →
      (cubeImpulse prims ⟨0, 0, 0⟩ (1/2) cubeB).velocity.z
          = (19/10) / prims.sqrtF 5
      ∧ (cubeImpulse prims ⟨0, 0, 0⟩ (1/2) cubeB).velocity.z ≠ 19/20
      ∧ (cubeImpulse prims ⟨0, 0, 0⟩ (1/2) cubeB).velocity.y = 19/40
      ∧ prims.sqrtF 4 < 5/2 := by
  intro prims h4 hlo hhi
  have h5ne : prims.sqrtF 5 ≠ 0 := by
    intro hz
    rw [hz] at hlo
    norm_num at hlo
  have hev : cubeImpulse prims ⟨0, 0, 0⟩ (1/2) cubeB
      = { cubeB with
          velocity := ⟨0, 1/2 * (19/20), 2 / prims.sqrtF 5 * (19/20)⟩ } := by
    have habs : |(1 : ℚ)/2| = 1/2 := by
      rw [abs_of_pos]
      norm_num
    simp only [cubeImpulse, cubeB]
    norm_num [h4, h5ne, habs]
  rw [hev]
  refine ⟨?_, ?_, by norm_num, by rw [h4]; norm_num⟩
  · show 2 / prims.sqrtF 5 * (19/20) = (19/10) / prims.sqrtF 5
    field_simp
    ring
  · show 2 / prims.sqrtF 5 * (19/20) ≠ 19/20
    intro heq
    have h2 : prims.sqrtF 5 = 2 := by
      field_simp at heq
      linarith
    rw [h2] at hlo
    norm_num at hlo

/-- Claim C5 witness: the amended Scenario B theorem evaluated at the
concrete rational square-root stand-in (exact at 4, the double value of
Math.sqrt(5) at 5). -/
theorem c5_witness :
    (primsZero.sqrtF 4 = 2 ∧ 11/5 ≤ primsZero.sqrtF 5 ∧ primsZero.sqrtF 5 ≤ 23/10) ∧
      ((cubeImpulse primsZero ⟨0, 0, 0⟩ (1/2) cubeB).velocity.z
          = (19/10) / primsZero.sqrtF 5
      ∧ (cubeImpulse primsZero ⟨0, 0, 0⟩ (1/2) cubeB).velocity.z ≠ 19/20
      ∧ (cubeImpulse primsZero ⟨0, 0, 0⟩ (1/2) cubeB).velocity.y = 19/40
      ∧ primsZero.sqrtF 4 < 5/2) :=
  ⟨⟨by norm_num [primsZero], by norm_num [primsZero], by norm_num [primsZero]⟩,
   c5_scenario_b primsZero (by norm_num [primsZero]) (by norm_num [primsZero])
     (by norm_num [primsZero])⟩
